import Mathlib

/-!
Verification development for the `support_chat` Django repository.

The Python source under `src/` is shallowly embedded below:
- `datetime.time` values compare lexicographically on
  (hour, minute, second, microsecond), which is the same as comparing the
  number of microseconds since midnight, so a time of day is a `Nat`;
- Django model rows become Lean structures, tables become lists (or, for
  the weekly schedule whose `day_of_week` is unique, a function from
  `Fin 7` to an optional row);
- `auto_now_add` timestamps are modelled by a monotone counter carried in
  the database state: every created row receives the current counter value
  and bumps it, which reflects that creation order and timestamp order
  agree;
- Python exceptions (`DoesNotExist`, `ValidationError`, Http404) become
  `Except`/`Option` results.
-/

namespace SupportChat

/-- Time of day in microseconds since midnight, the order-isomorphic image
of Python `datetime.time` under lexicographic comparison. -/
abbrev TimeOfDay := Nat

def hourOf (t : TimeOfDay) : Nat := t / 3600000000

def minuteOf (t : TimeOfDay) : Nat := t % 3600000000 / 60000000

/-- Zero-padded two-digit decimal rendering, as `strftime` field output. -/
def pad2 (n : Nat) : String := if n < 10 then "0" ++ toString n else toString n

/-- Embedding of `t.strftime('%I:%M %p')` from `src/chat/models.py`:
12-hour clock with zero padding and an AM/PM marker. -/
def fmtTime12 (t : TimeOfDay) : String :=
  let h := hourOf t
  let h12 := if h % 12 = 0 then 12 else h % 12
  let marker := if h < 12 then "AM" else "PM"
  pad2 h12 ++ ":" ++ pad2 (minuteOf t) ++ " " ++ marker

/-- Row of the `HelpdeskSchedule` table (`src/chat/models.py`), minus the
audit fields that no claim touches. `day_of_week` is the unique key and is
represented by the position in a `Fin 7`-indexed map. -/
structure HelpdeskSchedule where
  is_active : Bool
  start_time : Option TimeOfDay
  end_time : Option TimeOfDay
deriving DecidableEq

/-- The weekly schedule table: at most one row per weekday
(`day_of_week` carries `unique=True`). -/
abbrev WeeklySchedule := Fin 7 → Option HelpdeskSchedule

/-- `DAYS_OF_WEEK` display names from `src/chat/models.py`. -/
def dayName (d : Fin 7) : String :=
  match d with
  | 0 => "Monday"
  | 1 => "Tuesday"
  | 2 => "Wednesday"
  | 3 => "Thursday"
  | 4 => "Friday"
  | 5 => "Saturday"
  | 6 => "Sunday"

/-- Row of the `ScheduleOverride` table (`src/chat/models.py`); `date` is
an opaque calendar-date key (`unique=True`). -/
structure ScheduleOverride where
  date : Nat
  is_active : Bool
  start_time : Option TimeOfDay
  end_time : Option TimeOfDay
  reason : String
deriving DecidableEq

/-- The schedule store: weekly rows plus date overrides. -/
structure SchedDB where
  weekly : WeeklySchedule
  overrides : List ScheduleOverride

/-- Embedding of `ScheduleOverride.get_override_for_date`
(`src/chat/models.py`): `objects.get(date=date)` on a unique column,
`None` on `DoesNotExist`. -/
def get_override_for_date (db : SchedDB) (date : Nat) : Option ScheduleOverride :=
  db.overrides.find? (fun ov => ov.date == date)

/-- Embedding of `HelpdeskSchedule.is_currently_available`
(`src/chat/models.py` lines 265-288). The caller's `timezone.localtime()`
is passed in as the weekday and time-of-day projections. Python truthiness
`not day_schedule.start_time` is `Option.isNone` (a `datetime.time` object
is always truthy on Python 3.5+). -/
def is_currently_available (weekly : WeeklySchedule) (weekday : Fin 7)
    (current_time : TimeOfDay) : Bool × String :=
  match weekly weekday with
  | none => (false, "Schedule not configured for this day")
  | some day_schedule =>
    if !day_schedule.is_active then
      (false, "Support is closed on " ++ dayName weekday ++ "s")
    else
      match day_schedule.start_time, day_schedule.end_time with
      | some s, some e =>
        if s ≤ current_time ∧ current_time ≤ e then
          (true, "Support is currently available")
        else
          (false, "Support hours: " ++ fmtTime12 s ++ " - " ++ fmtTime12 e)
      | _, _ => (true, "Support is available")

/-- Embedding of the availability decision of `schedule_status_api`
(`src/accounts/views.py` lines 280-297): the override for today's date is
consulted first; `if override.is_active and override.start_time and
override.end_time` selects the special-hours window, otherwise the
override's `is_active` flag is returned directly; with no override the
weekly `is_currently_available` decides. -/
def schedule_status (db : SchedDB) (date : Nat) (weekday : Fin 7)
    (current_time : TimeOfDay) : Bool × String :=
  match get_override_for_date db date with
  | some ov =>
    match ov.start_time, ov.end_time with
    | some s, some e =>
      if ov.is_active then
        (decide (s ≤ current_time) && decide (current_time ≤ e),
         "Special hours today: " ++ fmtTime12 s ++ " - " ++ fmtTime12 e
           ++ " (" ++ ov.reason ++ ")")
      else
        (ov.is_active, "Special schedule today: " ++ ov.reason)
    | _, _ => (ov.is_active, "Special schedule today: " ++ ov.reason)
  | none => is_currently_available db.weekly weekday current_time

/-- Claim C1: for every date that has a ScheduleOverride record, the
availability check for an instant on that date is decided by the override
and not by the weekly schedule entry: the result is unchanged under any
replacement of the weekly table; if the override's `is_active` is false it
returns closed with the override's reason; if it is true with both times
set it returns open iff the time of day lies within the inclusive window
`[start_time, end_time]`. -/
theorem C1_override_wins (db : SchedDB) (date : Nat) (weekday : Fin 7)
    (t : TimeOfDay) (ov : ScheduleOverride)
    (hov : get_override_for_date db date = some ov) :
    (∀ w' : WeeklySchedule, ∀ wd' : Fin 7,
      schedule_status ⟨w', db.overrides⟩ date wd' t = schedule_status db date weekday t) ∧
    (ov.is_active = false →
      schedule_status db date weekday t =
        (false, "Special schedule today: " ++ ov.reason)) ∧
    (∀ s e, ov.is_active = true → ov.start_time = some s → ov.end_time = some e →
      ((schedule_status db date weekday t).1 = true ↔ s ≤ t ∧ t ≤ e)) := by
  have hov' : get_override_for_date ⟨db.weekly, db.overrides⟩ date = some ov := by
    cases db; exact hov
  refine ⟨?_, ?_, ?_⟩
  · intro w' wd'
    have h1 : get_override_for_date ⟨w', db.overrides⟩ date = some ov := hov'
    cases db
    simp only [schedule_status, h1, hov']
  · intro hin
    simp only [schedule_status, hov, hin]
    cases hs : ov.start_time <;> cases he : ov.end_time <;> simp
  · intro s e hact hs he
    simp only [schedule_status, hov, hs, he, hact, if_true]
    simp [Bool.and_eq_true, decide_eq_true_iff]

/-- Witness for C1 at a concrete store: a closed override for date 42
("Holiday") beats a weekly Monday 09:00-17:00 entry. -/
theorem C1_override_wins_witness :
    schedule_status
      ⟨fun d => if d = (0 : Fin 7) then
          some ⟨true, some 32400000000, some 61200000000⟩ else none,
        [⟨42, false, none, none, "Holiday"⟩]⟩ 42 0 36000000000 =
      (false, "Special schedule today: " ++ "Holiday") := by
  have h := C1_override_wins
    ⟨fun d => if d = (0 : Fin 7) then
        some ⟨true, some 32400000000, some 61200000000⟩ else none,
      [⟨42, false, none, none, "Holiday"⟩]⟩ 42 0 36000000000
    ⟨42, false, none, none, "Holiday"⟩ (by rfl)
  exact h.2.1 (by rfl)

/-- Claim C7: the open-hours window comparison of
`is_currently_available` is inclusive at both endpoints: for an active
weekly entry with both times set (well formed, so `start < end`), the
check at exactly `end_time` and at exactly `start_time` returns open, and
at any time strictly after `end_time` it returns closed. -/
theorem C7_inclusive_bounds (weekly : WeeklySchedule) (d : Fin 7)
    (entry : HelpdeskSchedule) (s e : TimeOfDay)
    (hd : weekly d = some entry) (hact : entry.is_active = true)
    (hs : entry.start_time = some s) (he : entry.end_time = some e)
    (hlt : s < e) :
    (is_currently_available weekly d e).1 = true ∧
    (is_currently_available weekly d s).1 = true ∧
    ∀ t : TimeOfDay, e < t → (is_currently_available weekly d t).1 = false := by
  refine ⟨?_, ?_, ?_⟩
  · simp only [is_currently_available, hd, hact, hs, he]
    simp [Nat.le_of_lt hlt]
  · simp only [is_currently_available, hd, hact, hs, he]
    simp [Nat.le_of_lt hlt]
  · intro t ht
    have hnot : ¬(s ≤ t ∧ t ≤ e) := fun h => absurd ht (Nat.not_lt.mpr h.2)
    simp only [is_currently_available, hd, hact, hs, he]
    simp [hnot]

/-- Witness for C7: Monday 09:00-17:00, checked at 17:00, 09:00
and one microsecond past 17:00. -/
theorem C7_inclusive_bounds_witness :
    (is_currently_available
      (fun d => if d = (0 : Fin 7) then
        some ⟨true, some 32400000000, some 61200000000⟩ else none)
      0 61200000000).1 = true ∧
    (is_currently_available
      (fun d => if d = (0 : Fin 7) then
        some ⟨true, some 32400000000, some 61200000000⟩ else none)
      0 61200000001).1 = false := by
  have h := C7_inclusive_bounds
    (fun d => if d = (0 : Fin 7) then
      some ⟨true, some 32400000000, some 61200000000⟩ else none)
    0 ⟨true, some 32400000000, some 61200000000⟩ 32400000000 61200000000
    (by rfl) (by rfl) (by rfl) (by rfl) (by decide)
  exact ⟨h.1, h.2.2 61200000001 (by decide)⟩

/-- Weekday reached `i` days after `d`, the `(current_day + i) % 7` of
`get_next_available_time`. -/
def offsetDay (d : Fin 7) (i : Nat) : Fin 7 :=
  ⟨(d.val + i) % 7, Nat.mod_lt _ (by norm_num)⟩

/-- Message for a hit of the 7-day scan: the "Tomorrow (<day>)" prefix is
used exactly for offset 1 (`src/chat/models.py` lines 312-316). -/
def scanMessage (i : Nat) (cd : Fin 7) (st : TimeOfDay) : String :=
  if i = 1 then "Tomorrow (" ++ dayName cd ++ ") at " ++ fmtTime12 st
  else dayName cd ++ " at " ++ fmtTime12 st

/-- Embedding of the `for i in range(1, 8)` loop of
`get_next_available_time`: `objects.get(day_of_week=check_day,
is_active=True)` raises `DoesNotExist` (continue) when the row is absent
or inactive; an active row replies only when `start_time` is set,
otherwise the loop also continues (no `else` on `if schedule.start_time`). -/
def nextScan (weekly : WeeklySchedule) (d : Fin 7) : List Nat → Option String
  | [] => none
  | i :: rest =>
    match weekly (offsetDay d i) with
    | some schedule =>
      if schedule.is_active then
        match schedule.start_time with
        | some st => some (scanMessage i (offsetDay d i) st)
        | none => nextScan weekly d rest
      else nextScan weekly d rest
    | none => nextScan weekly d rest

/-- Embedding of the "Check remaining time today" block of
`get_next_available_time` (`src/chat/models.py` lines 298-304). -/
def todayBranch (weekly : WeeklySchedule) (d : Fin 7) (t : TimeOfDay) :
    Option String :=
  match weekly d with
  | some today_schedule =>
    if today_schedule.is_active then
      match today_schedule.start_time, today_schedule.end_time with
      | some st, some _ => if t < st then some ("Today at " ++ fmtTime12 st) else none
      | _, _ => none
    else none
  | none => none

/-- Embedding of `HelpdeskSchedule.get_next_available_time`
(`src/chat/models.py` lines 290-320). It takes the whole schedule store,
of which it reads only the weekly table — date overrides never enter. -/
def get_next_available_time (db : SchedDB) (d : Fin 7) (t : TimeOfDay) : String :=
  match todayBranch db.weekly d t with
  | some r => r
  | none =>
    match nextScan db.weekly d [1, 2, 3, 4, 5, 6, 7] with
    | some r => r
    | none => "Schedule not available"

/-- A day counts for the 7-day scan when it has an active weekly row. -/
def dayActive (weekly : WeeklySchedule) (cd : Fin 7) : Bool :=
  match weekly cd with
  | some schedule => schedule.is_active
  | none => false

/-- Invariant of the weekly table: every write path goes through
`HelpdeskSchedule.save`, which calls `clean`, so an active row always has
both times set (and `start < end`). -/
def WFWeekly (weekly : WeeklySchedule) : Prop :=
  ∀ d schedule, weekly d = some schedule → schedule.is_active = true →
    ∃ s e, schedule.start_time = some s ∧ schedule.end_time = some e ∧ s < e

theorem nextScan_skip (weekly : WeeklySchedule) (d : Fin 7) (i : Nat)
    (L : List Nat) (h : dayActive weekly (offsetDay d i) = false) :
    nextScan weekly d (i :: L) = nextScan weekly d L := by
  unfold dayActive at h
  cases hcd : weekly (offsetDay d i) with
  | none => simp [nextScan, hcd]
  | some schedule =>
    rw [hcd] at h
    simp only [] at h
    simp [nextScan, hcd, h]

theorem nextScan_hit (weekly : WeeklySchedule) (d : Fin 7) (i : Nat)
    (L : List Nat) (schedule : HelpdeskSchedule) (st : TimeOfDay)
    (hcd : weekly (offsetDay d i) = some schedule)
    (hact : schedule.is_active = true) (hst : schedule.start_time = some st) :
    nextScan weekly d (i :: L) = some (scanMessage i (offsetDay d i) st) := by
  unfold nextScan
  simp [hcd, hact, hst]

/-- Claim C2: `get_next_available_time` returns "Today at <openTime>" when
today's weekly entry is active with times set and now precedes its open
time; otherwise it scans offsets 1..7 in increasing order, skips days
without an active entry, and returns the first active day's open time with
the "Tomorrow (<day>)" prefix exactly when the offset is 1; if no day
matches it returns the sentinel "Schedule not available"; and date
overrides are never consulted (the result is unchanged under any
replacement of the override table). The weekly table is assumed well
formed (`WFWeekly`), which every write path enforces via `save`/`clean`. -/
theorem C2_next_available (weekly : WeeklySchedule) (ovs : List ScheduleOverride)
    (d : Fin 7) (t : TimeOfDay) (hwf : WFWeekly weekly) :
    (∀ ovs' : List ScheduleOverride,
      get_next_available_time ⟨weekly, ovs'⟩ d t =
        get_next_available_time ⟨weekly, ovs⟩ d t) ∧
    (∀ schedule st e, weekly d = some schedule → schedule.is_active = true →
      schedule.start_time = some st → schedule.end_time = some e → t < st →
      get_next_available_time ⟨weekly, ovs⟩ d t = "Today at " ++ fmtTime12 st) ∧
    (∀ i schedule, todayBranch weekly d t = none →
      1 ≤ i → i ≤ 7 →
      (∀ j, 1 ≤ j → j < i → dayActive weekly (offsetDay d j) = false) →
      weekly (offsetDay d i) = some schedule → schedule.is_active = true →
      ∃ st, schedule.start_time = some st ∧
        get_next_available_time ⟨weekly, ovs⟩ d t = scanMessage i (offsetDay d i) st) ∧
    (todayBranch weekly d t = none →
      (∀ i, 1 ≤ i → i ≤ 7 → dayActive weekly (offsetDay d i) = false) →
      get_next_available_time ⟨weekly, ovs⟩ d t = "Schedule not available") := by
  refine ⟨fun _ => rfl, ?_, ?_, ?_⟩
  · intro schedule st e hd hact hst hen hlt
    unfold get_next_available_time todayBranch
    simp [hd, hact, hst, hen, hlt]
  · intro i schedule htoday h1 h7 hskip hcd hact
    obtain ⟨st, _, hst, _, _⟩ := hwf (offsetDay d i) schedule hcd hact
    refine ⟨st, hst, ?_⟩
    unfold get_next_available_time
    simp only [htoday]
    have sk : ∀ j, 1 ≤ j → j < i → ∀ L : List Nat,
        nextScan weekly d (j :: L) = nextScan weekly d L :=
      fun j hj1 hj2 L => nextScan_skip weekly d j L (hskip j hj1 hj2)
    interval_cases i
    · rw [nextScan_hit weekly d 1 _ schedule st hcd hact hst]
    · rw [sk 1 (by norm_num) (by norm_num),
        nextScan_hit weekly d 2 _ schedule st hcd hact hst]
    · rw [sk 1 (by norm_num) (by norm_num), sk 2 (by norm_num) (by norm_num),
        nextScan_hit weekly d 3 _ schedule st hcd hact hst]
    · rw [sk 1 (by norm_num) (by norm_num), sk 2 (by norm_num) (by norm_num),
        sk 3 (by norm_num) (by norm_num),
        nextScan_hit weekly d 4 _ schedule st hcd hact hst]
    · rw [sk 1 (by norm_num) (by norm_num), sk 2 (by norm_num) (by norm_num),
        sk 3 (by norm_num) (by norm_num), sk 4 (by norm_num) (by norm_num),
        nextScan_hit weekly d 5 _ schedule st hcd hact hst]
    · rw [sk 1 (by norm_num) (by norm_num), sk 2 (by norm_num) (by norm_num),
        sk 3 (by norm_num) (by norm_num), sk 4 (by norm_num) (by norm_num),
        sk 5 (by norm_num) (by norm_num),
        nextScan_hit weekly d 6 _ schedule st hcd hact hst]
    · rw [sk 1 (by norm_num) (by norm_num), sk 2 (by norm_num) (by norm_num),
        sk 3 (by norm_num) (by norm_num), sk 4 (by norm_num) (by norm_num),
        sk 5 (by norm_num) (by norm_num), sk 6 (by norm_num) (by norm_num),
        nextScan_hit weekly d 7 _ schedule st hcd hact hst]
  · intro htoday hnone
    unfold get_next_available_time
    simp only [htoday]
    rw [nextScan_skip weekly d 1 _ (hnone 1 (by norm_num) (by norm_num)),
      nextScan_skip weekly d 2 _ (hnone 2 (by norm_num) (by norm_num)),
      nextScan_skip weekly d 3 _ (hnone 3 (by norm_num) (by norm_num)),
      nextScan_skip weekly d 4 _ (hnone 4 (by norm_num) (by norm_num)),
      nextScan_skip weekly d 5 _ (hnone 5 (by norm_num) (by norm_num)),
      nextScan_skip weekly d 6 _ (hnone 6 (by norm_num) (by norm_num)),
      nextScan_skip weekly d 7 _ (hnone 7 (by norm_num) (by norm_num))]
    rfl

/-- Witness for C2: Monday-only schedule (09:00-17:00), asked on a
Wednesday at 18:00: offsets 1-4 are inactive and offset 5 lands on
Monday, so the answer is "Monday at 09:00 AM". -/
theorem C2_next_available_witness :
    get_next_available_time
      ⟨fun d => if d = (0 : Fin 7) then
          some ⟨true, some 32400000000, some 61200000000⟩ else none,
        []⟩ 2 64800000000 = scanMessage 5 (offsetDay 2 5) 32400000000 := by
  have h := C2_next_available
    (fun d => if d = (0 : Fin 7) then
      some ⟨true, some 32400000000, some 61200000000⟩ else none)
    [] 2 64800000000 (by
      intro d schedule hd hact
      by_cases hzero : d = (0 : Fin 7)
      · subst hzero
        simp at hd
        exact ⟨32400000000, 61200000000, by rw [← hd], by rw [← hd], by decide⟩
      · simp [hzero] at hd)
  obtain ⟨st, hst, heq⟩ := h.2.2.1 5 ⟨true, some 32400000000, some 61200000000⟩
    (by decide) (by norm_num) (by norm_num)
    (by intro j hj1 hj2; interval_cases j <;> decide)
    (by decide) (by rfl)
  injection hst with hst'
  subst hst'
  exact heq

/-- The `ChatStatus` choices from `src/chat/models.py`. -/
inductive ChatStatus where
  | waiting
  | active
  | student_left
  | closed
deriving DecidableEq

/-- Row of the `ChatSession` table (`src/chat/models.py`). `technicians`
is the many-to-many set, kept as a duplicate-free list of user primary
keys; `created_at` is the `auto_now_add` tick. -/
structure ChatSession where
  chat_id : String
  student_name : String
  initial_message : String
  created_at : Nat
  status : ChatStatus
  technicians : List Nat
  student_session_key : String
deriving DecidableEq

/-- Row of the `ChatMessage` table; `chat` is the owning session's
`chat_id`, `timestamp` the `auto_now_add` tick, `message_type` one of
"text", "emoji", "system". -/
structure ChatMessage where
  chat : String
  sender_name : String
  sender_user : Option Nat
  content : String
  timestamp : Nat
  is_from_student : Bool
  message_type : String
deriving DecidableEq

/-- Row of the `ChatAttachment` table; `message` is the owning message's
timestamp tick (its creation key). -/
structure ChatAttachment where
  chat : String
  message : Nat
  original_filename : String
  file_size : Nat
  uploaded_by_student : Bool
deriving DecidableEq

/-- The persistent state the chat views operate on: the three chat
tables, the user table (primary keys only), the schedule store, and the
monotone `auto_now_add` counter. -/
structure DB where
  sessions : List ChatSession
  messages : List ChatMessage
  attachments : List ChatAttachment
  users : List Nat
  sched : SchedDB
  clock : Nat

/-- Many-to-many `add`: a no-op when the pair already exists (the through
table has a unique constraint), an append otherwise. -/
def m2mAdd (l : List Nat) (u : Nat) : List Nat := if u ∈ l then l else l ++ [u]

/-- Embedding of `ChatSession.add_technician` (`src/chat/models.py` lines
61-70): `User.objects.get(pk=user.pk)` raises `DoesNotExist` for an
unpersisted user; otherwise the user is added to the `technicians` set
and the status flips to Active only when it was Waiting. -/
def add_technician (users : List Nat) (s : ChatSession) (uid : Nat) :
    Except String ChatSession :=
  if uid ∈ users then
    let s1 := { s with technicians := m2mAdd s.technicians uid }
    Except.ok (if s1.status = ChatStatus.waiting then
      { s1 with status := ChatStatus.active } else s1)
  else Except.error "User matching query does not exist."

/-- Claim C3: `add_technician` is idempotent and flips only Waiting to
Active. For a persisted user and a session whose technician set is
duplicate-free, two successive calls succeed, the second changes nothing,
the user ends up in the set exactly once, and the status becomes Active
when it was Waiting and is untouched otherwise. -/
theorem C3_add_technician_idempotent (users : List Nat) (s : ChatSession)
    (uid : Nat) (hu : uid ∈ users) (hnd : s.technicians.Nodup) :
    ∃ s1, add_technician users s uid = Except.ok s1 ∧
      add_technician users s1 uid = Except.ok s1 ∧
      s1.technicians.count uid = 1 ∧
      (s.status = ChatStatus.waiting → s1.status = ChatStatus.active) ∧
      (s.status ≠ ChatStatus.waiting → s1.status = s.status) := by
  unfold add_technician
  simp only [if_pos hu]
  by_cases hmem : uid ∈ s.technicians
  · by_cases hw : s.status = ChatStatus.waiting
    · refine ⟨_, rfl, ?_⟩
      simp [m2mAdd, hmem, hw]
      exact List.count_eq_one_of_mem hnd hmem
    · refine ⟨_, rfl, ?_⟩
      simp [m2mAdd, hmem, hw]
      exact List.count_eq_one_of_mem hnd hmem
  · by_cases hw : s.status = ChatStatus.waiting
    · refine ⟨_, rfl, ?_⟩
      have hmem' : uid ∈ s.technicians ++ [uid] := by simp
      simp [m2mAdd, hmem, hw, hmem']
      exact List.count_eq_zero_of_not_mem hmem
    · refine ⟨_, rfl, ?_⟩
      have hmem' : uid ∈ s.technicians ++ [uid] := by simp
      simp [m2mAdd, hmem, hw, hmem']
      exact List.count_eq_zero_of_not_mem hmem

/-- Witness for C3: user 5 joins a fresh Waiting session twice. -/
theorem C3_add_technician_idempotent_witness :
    ∃ s1, add_technician [5]
        ⟨"CHAT-1", "Ada", "help", 0, ChatStatus.waiting, [], "k"⟩ 5 =
        Except.ok s1 ∧
      add_technician [5] s1 5 = Except.ok s1 ∧
      s1.technicians.count 5 = 1 ∧ s1.status = ChatStatus.active := by
  obtain ⟨s1, h1, h2, h3, h4, _⟩ := C3_add_technician_idempotent [5]
    ⟨"CHAT-1", "Ada", "help", 0, ChatStatus.waiting, [], "k"⟩ 5
    (by decide) (by decide)
  exact ⟨s1, h1, h2, h3, h4 (by rfl)⟩

/-- Lookup of a session by `chat_id` (`get_object_or_404`): `chat_id`
carries `unique=True`, so `find?` on the list is the table lookup. -/
def lookupSession (db : DB) (cid : String) : Option ChatSession :=
  db.sessions.find? (fun s => s.chat_id == cid)

/-- Error taxonomy surfaced by the embedded views. -/
inductive ApiError where
  | notFound
deriving DecidableEq

/-- Embedding of reading a session's ordered message history
(`chat.messages.all().order_by('timestamp')` behind `get_object_or_404`):
`NotFound` when the session is gone. Creation order and timestamp order
agree because timestamps come from the monotone counter. -/
def listMessages (db : DB) (cid : String) : Except ApiError (List ChatMessage) :=
  match lookupSession db cid with
  | none => Except.error ApiError.notFound
  | some _ => Except.ok (db.messages.filter (fun m => m.chat == cid))

/-- Step 1 of the close cascade: `chat.attachments.all().delete()`. -/
def delete_chat_attachments (db : DB) (cid : String) : DB :=
  { db with attachments := db.attachments.filter (fun a => !(a.chat == cid)) }

/-- Step 2 of the close cascade: `chat.messages.all().delete()`. -/
def delete_chat_messages (db : DB) (cid : String) : DB :=
  { db with messages := db.messages.filter (fun m => !(m.chat == cid)) }

/-- Step 3 of the close cascade: `chat.delete()` removes the session row
(its file cleanup touches only blob storage, not these tables). -/
def delete_session_record (db : DB) (cid : String) : DB :=
  { db with sessions := db.sessions.filter (fun s => !(s.chat_id == cid)) }

/-- Embedding of the `close_chat` action of `technician_chat`
(`src/chat/views.py` lines 304-315): the status is set to Closed and
saved, then attachments, messages and the session record are deleted in
that order. -/
def close_chat (db : DB) (cid : String) : DB :=
  let db0 := { db with sessions := db.sessions.map (fun s =>
    if s.chat_id == cid then { s with status := ChatStatus.closed } else s) }
  delete_session_record (delete_chat_messages (delete_chat_attachments db0 cid) cid) cid

theorem find?_filter_not {α : Type} (l : List α) (p : α → Bool) :
    (l.filter (fun x => !(p x))).find? p = none := by
  induction l with
  | nil => rfl
  | cons a l ih =>
    by_cases h : p a = true
    · simp [List.filter, h, ih]
    · have h' : p a = false := by
        cases hpa : p a
        · rfl
        · exact absurd hpa h
      simp [List.filter, h', ih]

/-- Claim C4: closing a chat session is destructive and total. After
`close_chat` the cascade has removed, in order, all of the session's
attachments, then all of its messages, then the session record, so the
lookup by id reports nothing and `listMessages` reports NotFound; rows of
other sessions are untouched. -/
theorem C4_close_destroys (db : DB) (cid : String) :
    close_chat db cid =
      delete_session_record (delete_chat_messages (delete_chat_attachments
        { db with sessions := db.sessions.map (fun s =>
            if s.chat_id == cid then { s with status := ChatStatus.closed } else s) }
        cid) cid) cid ∧
    lookupSession (close_chat db cid) cid = none ∧
    listMessages (close_chat db cid) cid = Except.error ApiError.notFound ∧
    (close_chat db cid).messages.filter (fun m => m.chat == cid) = [] ∧
    (close_chat db cid).attachments.filter (fun a => a.chat == cid) = [] ∧
    (close_chat db cid).messages.filter (fun m => !(m.chat == cid)) =
      db.messages.filter (fun m => !(m.chat == cid)) ∧
    (close_chat db cid).attachments.filter (fun a => !(a.chat == cid)) =
      db.attachments.filter (fun a => !(a.chat == cid)) := by
  have hlook : lookupSession (close_chat db cid) cid = none := by
    unfold close_chat delete_session_record delete_chat_messages
      delete_chat_attachments lookupSession
    exact find?_filter_not _ _
  refine ⟨rfl, hlook, ?_, ?_, ?_, ?_, ?_⟩
  · unfold listMessages
    rw [hlook]
  · unfold close_chat delete_session_record delete_chat_messages
      delete_chat_attachments
    simp [List.filter_filter]
  · unfold close_chat delete_session_record delete_chat_messages
      delete_chat_attachments
    simp [List.filter_filter]
  · unfold close_chat delete_session_record delete_chat_messages
      delete_chat_attachments
    simp [List.filter_filter]
  · unfold close_chat delete_session_record delete_chat_messages
      delete_chat_attachments
    simp [List.filter_filter]

/-- An uploaded file as the form sees it: name and byte size. -/
structure UploadedFile where
  name : String
  size : Nat
deriving DecidableEq

/-- Per-file limit from `ChatMessageForm.clean_attachments`: 5 MiB. -/
def max_file_size : Nat := 5 * 1024 * 1024

/-- Aggregate limit from `ChatMessageForm.clean_attachments`: 25 MiB. -/
def max_total_size : Nat := 25 * 1024 * 1024

/-- Embedding of `ChatMessageForm.clean_attachments`
(`src/chat/forms.py` lines 130-153): empty list passes; the loop raises
on the first file strictly over 5 MiB while accumulating the total; then
the total is checked against 25 MiB, then the count against 10 — all
three comparisons strict. -/
def clean_attachments (files : List UploadedFile) :
    Except String (List UploadedFile) :=
  if files.isEmpty then Except.ok files
  else
    match files.find? (fun f => max_file_size < f.size) with
    | some f =>
      Except.error ("🚫 File \"" ++ f.name ++
        "\" is too large. Maximum size is 5MB per file.")
    | none =>
      if max_total_size < (files.map (fun f => f.size)).sum then
        Except.error "🚫 Total file size exceeds 25MB limit"
      else if 10 < files.length then
        Except.error "🚫 Maximum 10 files per message"
      else Except.ok files

/-- Allowed upload extensions of the `attachments` field
(`src/chat/forms.py` lines 80-95). The Python list lacks a comma after
'xlsx', so implicit string concatenation fuses it with 'py' into the
single entry "xlsxpy" — reproduced faithfully. -/
def ALLOWED_EXTENSIONS : List String :=
  ["png", "jpg", "jpeg", "gif", "bmp", "webp",
   "doc", "docx", "odp", "ods", "odt", "pdf", "txt", "rtf", "xls", "xlsxpy",
   "js", "html", "css", "json", "csv",
   "mp3", "wav", "mp4", "avi", "mov",
   "zip", "7z"]

/-- Extension extraction as `FileExtensionValidator` does it: the
lower-cased part after the last dot, empty when there is no dot. -/
def fileExt (name : String) : String :=
  let l := name.data
  if '.' ∈ l then
    String.mk (((l.reverse.takeWhile (fun c => !(c == '.'))).reverse).map Char.toLower)
  else ""

/-- Replacement of every non-overlapping occurrence of `o :: os` by
`new`, scanning left to right — the semantics of Python `str.replace`.
The first argument counts characters still to skip after a match. -/
def replaceAux (o : Char) (os new : List Char) : Nat → List Char → List Char
  | _ + 1, [] => []
  | k + 1, _ :: rest => replaceAux o os new k rest
  | 0, [] => []
  | 0, c :: rest =>
    if (o :: os).isPrefixOf (c :: rest) then
      new ++ replaceAux o os new os.length rest
    else c :: replaceAux o os new 0 rest

/-- Python `s.replace(old, new)` for a non-empty `old`. -/
def pyReplace (s old new : String) : String :=
  match old.data with
  | [] => s
  | o :: os => String.mk (replaceAux o os new.data 0 s.data)

/-- Python `s.strip()`: whitespace removed from both ends. -/
def pyStrip (s : String) : String :=
  String.mk (((s.data.dropWhile Char.isWhitespace).reverse.dropWhile
    Char.isWhitespace).reverse)

/-- Embedding of `ChatMessageForm.clean_content` emoji substitution: the
twelve `str.replace` calls in dictionary order. -/
def emoji_replace (c : String) : String :=
  let c := pyReplace c ":)" "🙂"
  let c := pyReplace c ":(" "🙁"
  let c := pyReplace c ":D" "😄"
  let c := pyReplace c ":P" "😛"
  let c := pyReplace c ":o" "😮"
  let c := pyReplace c ":/" "🫤"
  let c := pyReplace c ":|" "😐"
  let c := pyReplace c ";)" "😉"
  let c := pyReplace c "<3" "❤️"
  let c := pyReplace c "</3" "💔"
  let c := pyReplace c ":thumbsup:" "👍"
  pyReplace c ":thumbsdown:" "👎"

/-- Embedding of `ChatMessageForm.clean_content`: strip, reject empty,
apply emoji substitution. -/
def clean_content (content : String) : Except String String :=
  let c := pyStrip content
  if c = "" then Except.error "🚫 Message cannot be empty"
  else if c.length < 1 then Except.error "🌊 Please enter a message"
  else Except.ok (emoji_replace c)

/-- Embedding of `ChatMessageForm.is_valid()`: the `content` field is
required with `max_length=2000`, every attachment must pass the extension
allow-list, then `clean_content` and `clean_attachments` run. -/
def chatMessageFormValid (content : String) (files : List UploadedFile) :
    Except String (String × List UploadedFile) :=
  if content = "" then Except.error "This field is required."
  else if 2000 < content.length then Except.error "Ensure this value has at most 2000 characters."
  else if !(files.all (fun f => ALLOWED_EXTENSIONS.contains (fileExt f.name))) then
    Except.error "File extension not allowed."
  else
    match clean_content content with
    | Except.error e => Except.error e
    | Except.ok c =>
      match clean_attachments files with
      | Except.error e => Except.error e
      | Except.ok fs => Except.ok (c, fs)

/-- Embedding of the `send_message` action of `student_chat`
(`src/chat/views.py` lines 120-156): on a valid form and a session not in
StudentLeft, one message row and one attachment row per file are created,
plus an offline-context system message when support is unavailable and
the session is still Waiting; on any validation failure nothing at all is
written. -/
def send_message_student (db : DB) (cid : String) (content : String)
    (files : List UploadedFile) (wd : Fin 7) (t : TimeOfDay) : DB × Bool :=
  match lookupSession db cid with
  | none => (db, false)
  | some chat =>
    match chatMessageFormValid content files with
    | Except.error _ => (db, false)
    | Except.ok (c, fs) =>
      if chat.status = ChatStatus.student_left then (db, false)
      else
        let msg : ChatMessage :=
          ⟨cid, chat.student_name, none, c, db.clock, true, "text"⟩
        let atts := fs.map (fun f =>
          (⟨cid, db.clock, f.name, f.size, true⟩ : ChatAttachment))
        let avail := is_currently_available db.sched.weekly wd t
        if !avail.1 && (chat.status = ChatStatus.waiting : Bool) then
          let sys : ChatMessage :=
            ⟨cid, "🤖 System", none,
              "📝 Your message has been received. " ++ avail.2,
              db.clock + 1, false, "system"⟩
          ({ db with
              messages := db.messages ++ [msg, sys],
              attachments := db.attachments ++ atts,
              clock := db.clock + 2 }, true)
        else
          ({ db with
              messages := db.messages ++ [msg],
              attachments := db.attachments ++ atts,
              clock := db.clock + 1 }, true)

/-- A one-session store used to exercise a full `send_message` call. -/
def sampleSendDB : DB :=
  ⟨[⟨"CHAT-X", "Ada", "help", 0, ChatStatus.waiting, [], "k"⟩],
    [], [], [], ⟨fun _ => none, []⟩, 1⟩

/-- Claim C5: `postMessage` rejects the whole call atomically when any
attachment limit is violated, writing no message and no attachment; a
call with 11 files fails; 10 files of 2 MiB each succeed (and a full call
with them writes one message and ten attachment rows); 10 files of 3 MiB
each fail on the aggregate limit; a file over 5 MiB fails the per-file
limit. -/
theorem C5_attachment_limits :
    (∀ db cid content files wd t e,
      clean_attachments files = Except.error e →
      send_message_student db cid content files wd t = (db, false)) ∧
    (∀ files : List UploadedFile, 10 < files.length →
      ∃ e, clean_attachments files = Except.error e) ∧
    clean_attachments (List.replicate 10 ⟨"notes.txt", 2 * 1024 * 1024⟩) =
      Except.ok (List.replicate 10 ⟨"notes.txt", 2 * 1024 * 1024⟩) ∧
    (send_message_student sampleSendDB "CHAT-X" "hello there"
      (List.replicate 10 ⟨"notes.txt", 2 * 1024 * 1024⟩) 0 0).2 = true ∧
    (send_message_student sampleSendDB "CHAT-X" "hello there"
      (List.replicate 10 ⟨"notes.txt", 2 * 1024 * 1024⟩) 0 0).1.attachments.length = 10 ∧
    clean_attachments (List.replicate 10 ⟨"notes.txt", 3 * 1024 * 1024⟩) =
      Except.error "🚫 Total file size exceeds 25MB limit" ∧
    clean_attachments [⟨"big.png", 5 * 1024 * 1024 + 1⟩] =
      Except.error ("🚫 File \"" ++ "big.png" ++
        "\" is too large. Maximum size is 5MB per file.") := by
  refine ⟨?_, ?_, by rfl, by rfl, by rfl, by rfl, by rfl⟩
  · intro db cid content files wd t e he
    unfold send_message_student
    cases hl : lookupSession db cid with
    | none => rfl
    | some chat =>
      unfold chatMessageFormValid
      split_ifs with h1 h2 h3
      · rfl
      · rfl
      · rfl
      · cases hc : clean_content content with
        | error e' => rfl
        | ok c => rw [he]
  · intro files hlen
    unfold clean_attachments
    have hne : files.isEmpty = false := by
      cases files with
      | nil => simp at hlen
      | cons a l => rfl
    rw [hne]
    simp only [Bool.false_eq_true, if_false]
    cases hf : files.find? (fun f => decide (max_file_size < f.size)) with
    | some f => exact ⟨_, rfl⟩
    | none =>
      by_cases ht : max_total_size < (files.map (fun f => f.size)).sum
      · exact ⟨_, by rw [if_pos ht]⟩
      · exact ⟨_, by rw [if_neg ht, if_pos hlen]⟩

/-- Witness for C5: the atomicity conjunct applied to a concrete store
and an 11-file upload — the state is returned unchanged. -/
theorem C5_attachment_limits_witness :
    send_message_student sampleSendDB "CHAT-X" "hello there"
      (List.replicate 11 ⟨"notes.txt", 1024⟩) 0 0 = (sampleSendDB, false) := by
  obtain ⟨e, he⟩ := C5_attachment_limits.2.1
    (List.replicate 11 ⟨"notes.txt", 1024⟩) (by decide)
  exact C5_attachment_limits.1 sampleSendDB "CHAT-X" "hello there"
    (List.replicate 11 ⟨"notes.txt", 1024⟩) 0 0 e he

/-- Claim C10: the three limit comparisons are strict, so the boundary
values are accepted: any upload list whose files are each at most 5 MiB,
whose total is at most 25 MiB and whose count is at most 10 passes
`clean_attachments` unchanged. -/
theorem C10_boundary_acceptance (files : List UploadedFile)
    (hfile : ∀ f ∈ files, f.size ≤ max_file_size)
    (htotal : (files.map (fun f => f.size)).sum ≤ max_total_size)
    (hcount : files.length ≤ 10) :
    clean_attachments files = Except.ok files := by
  unfold clean_attachments
  cases hne : files.isEmpty with
  | true => rfl
  | false =>
    have hf : files.find? (fun f => decide (max_file_size < f.size)) = none := by
      rw [List.find?_eq_none]
      intro f hmem
      simp only [decide_eq_true_eq]
      exact Nat.not_lt.mpr (hfile f hmem)
    simp only [Bool.false_eq_true, if_false, hf]
    rw [if_neg (Nat.not_lt.mpr htotal), if_neg (Nat.not_lt.mpr hcount)]

/-- Witness for C10 at all three boundaries at once: ten files of exactly
2.5 MiB (total exactly 25 MiB, count exactly 10) pass, and so does a
single file of exactly 5 MiB. -/
theorem C10_boundary_acceptance_witness :
    clean_attachments (List.replicate 10 ⟨"b.png", 2621440⟩) =
      Except.ok (List.replicate 10 ⟨"b.png", 2621440⟩) ∧
    clean_attachments [⟨"a.png", 5 * 1024 * 1024⟩] =
      Except.ok [⟨"a.png", 5 * 1024 * 1024⟩] :=
  ⟨C10_boundary_acceptance (List.replicate 10 ⟨"b.png", 2621440⟩)
      (by decide) (by decide) (by decide),
    C10_boundary_acceptance [⟨"a.png", 5 * 1024 * 1024⟩]
      (by decide) (by decide) (by decide)⟩

/-- Embedding of the access validation of `student_chat`
(`src/chat/views.py` lines 94-115): access is granted when the stored
session key matches the caller's, or when the stored key is empty and the
request is a GET, in which case the caller's key is bound and saved. -/
def student_chat_access (chat : ChatSession) (session_key : String)
    (isGet : Bool) : Bool × ChatSession :=
  if chat.student_session_key == session_key then (true, chat)
  else if chat.student_session_key == "" && isGet then
    (true, { chat with student_session_key := session_key })
  else (false, chat)

/-- The operations of the embedded views that write a `ChatSession` row
(the access check with its first-touch bind, a technician join, the
student leaving, a technician marking the chat closed before deletion). -/
inductive SessionOp where
  | access (key : String) (isGet : Bool)
  | addTech (users : List Nat) (uid : Nat)
  | leave
  | markClosed

/-- Effect of each session-writing operation on one `ChatSession` row. -/
def applySessionOp (s : ChatSession) : SessionOp → ChatSession
  | SessionOp.access key g => (student_chat_access s key g).2
  | SessionOp.addTech users uid =>
    match add_technician users s uid with
    | Except.ok s' => s'
    | Except.error _ => s
  | SessionOp.leave => { s with status := ChatStatus.student_left }
  | SessionOp.markClosed => { s with status := ChatStatus.closed }

/-- Claim C6: student access control with first-touch binding. Access is
granted iff the stored student token equals the caller's token, or the
stored token is unset and the request is a read; in the latter case the
caller's token is bound as a side effect; and once a non-empty token is
stored, no session-writing operation ever changes it. -/
theorem C6_first_touch_binding :
    (∀ chat key g, (student_chat_access chat key g).1 = true ↔
      (chat.student_session_key = key ∨
        (chat.student_session_key = "" ∧ g = true))) ∧
    (∀ chat key, chat.student_session_key = "" →
      (student_chat_access chat key true).2.student_session_key = key) ∧
    (∀ s op, s.student_session_key ≠ "" →
      (applySessionOp s op).student_session_key = s.student_session_key) := by
  refine ⟨?_, ?_, ?_⟩
  · intro chat key g
    unfold student_chat_access
    by_cases h1 : chat.student_session_key = key
    · simp [h1]
    · by_cases h2 : chat.student_session_key = ""
      · have h1' : ("" : String) ≠ key := fun hk => h1 (h2.trans hk)
        cases g <;> simp [h1, h2, h1']
      · simp [h1, h2]
  · intro chat key h
    unfold student_chat_access
    rcases eq_or_ne key "" with hk | hk
    · subst hk
      simp [h]
    · simp [h, Ne.symm hk]
  · intro s op hne
    cases op with
    | access key g =>
      unfold applySessionOp student_chat_access
      by_cases h1 : s.student_session_key = key
      · simp [h1]
      · by_cases hg : g
        · simp [h1, hne, hg]
        · simp [h1, hne, hg]
    | addTech users uid =>
      unfold applySessionOp add_technician
      by_cases hu : uid ∈ users
      · simp only [if_pos hu]
        by_cases hw : s.status = ChatStatus.waiting <;> simp [hw]
      · simp [hu]
    | leave => rfl
    | markClosed => rfl

/-- Witness for C6: a fresh session with an empty key binds the first
reader's key "s1", and a later writer "s2" cannot change it. -/
theorem C6_first_touch_binding_witness :
    (student_chat_access
      ⟨"CHAT-Y", "Ada", "help", 0, ChatStatus.waiting, [], ""⟩ "s1"
      true).2.student_session_key = "s1" ∧
    (applySessionOp
      ⟨"CHAT-Y", "Ada", "help", 0, ChatStatus.waiting, [], "s1"⟩
      (SessionOp.access "s2" true)).student_session_key = "s1" :=
  ⟨C6_first_touch_binding.2.1
      ⟨"CHAT-Y", "Ada", "help", 0, ChatStatus.waiting, [], ""⟩ "s1" (by rfl),
    C6_first_touch_binding.2.2
      ⟨"CHAT-Y", "Ada", "help", 0, ChatStatus.waiting, [], "s1"⟩
      (SessionOp.access "s2" true) (by decide)⟩

/-- Wall-clock reading used by `generate_chat_id`'s
`datetime.now().strftime('%Y%m%d%H%M%S')`. -/
structure PyDateTime where
  year : Nat
  month : Nat
  day : Nat
  hour : Nat
  minute : Nat
  second : Nat

/-- Zero-padded two-digit `strftime` field for values below 100. -/
def fmt2d (n : Nat) : String := String.mk [Nat.digitChar (n / 10), Nat.digitChar (n % 10)]

/-- Zero-padded four-digit `strftime` `%Y` field for years 1000-9999. -/
def fmt4d (n : Nat) : String :=
  String.mk [Nat.digitChar (n / 1000), Nat.digitChar (n / 100 % 10),
    Nat.digitChar (n / 10 % 10), Nat.digitChar (n % 10)]

/-- Embedding of `now.strftime('%Y%m%d%H%M%S')`: fourteen digits. -/
def strftime14 (dt : PyDateTime) : String :=
  fmt4d dt.year ++ fmt2d dt.month ++ fmt2d dt.day ++ fmt2d dt.hour ++
    fmt2d dt.minute ++ fmt2d dt.second

/-- Alphabet handed to `get_random_string` in `generate_chat_id`. -/
def ALPHANUM : List Char := "ABCDEFGHIJKLMNOPQRSTUVWXYZ0123456789".data

theorem ALPHANUM_length : ALPHANUM.length = 36 := rfl

/-- One character drawn from `ALPHANUM` by a seed value. -/
def pickAlnum (i : Nat) : Char :=
  ALPHANUM.get ⟨i % 36, by rw [ALPHANUM_length]; exact Nat.mod_lt _ (by norm_num)⟩

/-- Embedding of `get_random_string(4, alphabet)`: four characters drawn
from the alphabet, the randomness source abstracted into a seed. -/
def get_random_string4 (seed : Nat) : String :=
  String.mk [pickAlnum seed, pickAlnum (seed / 36), pickAlnum (seed / 1296),
    pickAlnum (seed / 46656)]

/-- Embedding of `generate_chat_id` (`src/chat/models.py` lines 19-23). -/
def generate_chat_id (dt : PyDateTime) (seed : Nat) : String :=
  "CHAT-" ++ strftime14 dt ++ "-" ++ get_random_string4 seed

/-- Validity region in which Python's `%Y%m%d%H%M%S` emits exactly
fourteen characters. -/
def ValidDT (dt : PyDateTime) : Prop :=
  1000 ≤ dt.year ∧ dt.year ≤ 9999 ∧ dt.month < 100 ∧ dt.day < 100 ∧
    dt.hour < 100 ∧ dt.minute < 100 ∧ dt.second < 100

/-- Content of the first system message created by `chat_landing`
(`src/chat/views.py` lines 36-42). -/
def start_system_content (avail : Bool) (ov : Option ScheduleOverride)
    (student_name : String) : String :=
  if avail then "💬 Chat started by " ++ student_name ++ ". Support is currently available!"
  else "💬 Chat started by " ++ student_name ++
    ". Support is currently offline - a technician will respond when available." ++
    (match ov with
     | some o => " (Special schedule: " ++ o.reason ++ ")"
     | none => "")

/-- Content of the extra schedule-context system message created when
support is offline (`src/chat/views.py` lines 59-67). -/
def offline_hours_content (availability_message next_available : String) : String :=
  "ℹ️ Support hours: " ++ availability_message ++ ". Next available: " ++ next_available

/-- Embedding of the POST branch of `chat_landing` (`src/chat/views.py`
lines 26-74) on a valid start form: the session row is created Waiting
with a generated id, followed by the system message and the student's
initial message; when support is unavailable a third, schedule-context
system message is also created. -/
def startChat (db : DB) (date : Nat) (wd : Fin 7) (t : TimeOfDay)
    (dt : PyDateTime) (seed : Nat)
    (student_name initial_message session_key : String) : DB × String :=
  let cid := generate_chat_id dt seed
  let avail := is_currently_available db.sched.weekly wd t
  let ov := get_override_for_date db.sched date
  let chat : ChatSession :=
    ⟨cid, student_name, initial_message, db.clock, ChatStatus.waiting, [], session_key⟩
  let m1 : ChatMessage :=
    ⟨cid, "🤖 System", none, start_system_content avail.1 ov student_name,
      db.clock + 1, false, "system"⟩
  let m2 : ChatMessage :=
    ⟨cid, student_name, none, initial_message, db.clock + 2, true, "text"⟩
  if avail.1 then
    ({ db with
        sessions := db.sessions ++ [chat],
        messages := db.messages ++ [m1, m2],
        clock := db.clock + 3 }, cid)
  else
    let m3 : ChatMessage :=
      ⟨cid, "🤖 System", none,
        offline_hours_content avail.2 (get_next_available_time db.sched wd t),
        db.clock + 3, false, "system"⟩
    ({ db with
        sessions := db.sessions ++ [chat],
        messages := db.messages ++ [m1, m2, m3],
        clock := db.clock + 4 }, cid)

theorem digitChar_isDigit (n : Nat) (h : n < 10) :
    (Nat.digitChar n).isDigit = true := by
  interval_cases n <;> rfl

theorem pickAlnum_mem (i : Nat) : pickAlnum i ∈ ALPHANUM := List.get_mem _ _ _

theorem startChat_chat_id (db : DB) (date : Nat) (wd : Fin 7) (t : TimeOfDay)
    (dt : PyDateTime) (seed : Nat) (sn im sk : String) :
    (startChat db date wd t dt seed sn im sk).2 = generate_chat_id dt seed := by
  unfold startChat
  by_cases h : (is_currently_available db.sched.weekly wd t).1 <;> simp [h]

/-- Claim C8 as the code forces it to be amended: the generated session
id always matches `CHAT-<14 digits>-<4 alphabet chars>`; the messages of
the fresh session are exactly the system message followed by the
student's initial message when support is available at the time of the
call, with a third schedule-context system message appended when it is
not; and their timestamps are strictly ascending. -/
theorem C8_startChat_initial_messages (db : DB) (date : Nat) (wd : Fin 7)
    (t : TimeOfDay) (dt : PyDateTime) (seed : Nat)
    (student_name initial_message session_key : String)
    (hdt : ValidDT dt)
    (hfresh : ∀ m ∈ db.messages, m.chat ≠ generate_chat_id dt seed) :
    (∃ ts sfx : List Char,
      (startChat db date wd t dt seed student_name initial_message
        session_key).2.data = "CHAT-".data ++ ts ++ '-' :: sfx ∧
      ts.length = 14 ∧ (∀ c ∈ ts, c.isDigit = true) ∧
      sfx.length = 4 ∧ (∀ c ∈ sfx, c ∈ ALPHANUM)) ∧
    ((is_currently_available db.sched.weekly wd t).1 = true →
      ((startChat db date wd t dt seed student_name initial_message
          session_key).1.messages.filter
        (fun m => m.chat == generate_chat_id dt seed)).map
          (fun m => (m.message_type, m.is_from_student, m.content)) =
      [("system", false, start_system_content true
          (get_override_for_date db.sched date) student_name),
        ("text", true, initial_message)]) ∧
    ((is_currently_available db.sched.weekly wd t).1 = false →
      ((startChat db date wd t dt seed student_name initial_message
          session_key).1.messages.filter
        (fun m => m.chat == generate_chat_id dt seed)).map
          (fun m => (m.message_type, m.is_from_student, m.content)) =
      [("system", false, start_system_content false
          (get_override_for_date db.sched date) student_name),
        ("text", true, initial_message),
        ("system", false, offline_hours_content
          (is_currently_available db.sched.weekly wd t).2
          (get_next_available_time db.sched wd t))]) ∧
    List.Chain' (fun a b => a < b)
      (((startChat db date wd t dt seed student_name initial_message
          session_key).1.messages.filter
        (fun m => m.chat == generate_chat_id dt seed)).map
          (fun m => m.timestamp)) := by
  obtain ⟨hy1, hy2, hmo, hd, hh, hmi, hs⟩ := hdt
  have hold : db.messages.filter
      (fun m => m.chat == generate_chat_id dt seed) = [] := by
    rw [List.filter_eq_nil_iff]
    intro m hm
    simp only [beq_iff_eq]
    exact hfresh m hm
  have hself : (generate_chat_id dt seed == generate_chat_id dt seed) = true := by
    simp
  refine ⟨?_, ?_, ?_, ?_⟩
  · have hdata : (strftime14 dt).data =
        [Nat.digitChar (dt.year / 1000), Nat.digitChar (dt.year / 100 % 10),
         Nat.digitChar (dt.year / 10 % 10), Nat.digitChar (dt.year % 10),
         Nat.digitChar (dt.month / 10), Nat.digitChar (dt.month % 10),
         Nat.digitChar (dt.day / 10), Nat.digitChar (dt.day % 10),
         Nat.digitChar (dt.hour / 10), Nat.digitChar (dt.hour % 10),
         Nat.digitChar (dt.minute / 10), Nat.digitChar (dt.minute % 10),
         Nat.digitChar (dt.second / 10), Nat.digitChar (dt.second % 10)] := by
      simp [strftime14, fmt4d, fmt2d, String.data_append]
    refine ⟨(strftime14 dt).data, (get_random_string4 seed).data, ?_, ?_, ?_, rfl, ?_⟩
    · rw [startChat_chat_id]
      simp only [generate_chat_id, String.data_append]
      have hdash : ("-" : String).data = ['-'] := rfl
      simp [hdash]
    · rw [hdata]
      rfl
    · intro c hc
      rw [hdata] at hc
      simp only [List.mem_cons, List.not_mem_nil, or_false] at hc
      rcases hc with rfl | rfl | rfl | rfl | rfl | rfl | rfl | rfl | rfl | rfl | rfl |
        rfl | rfl | rfl <;>
        apply digitChar_isDigit <;>
        omega
    · intro c hc
      have hrand : (get_random_string4 seed).data =
          [pickAlnum seed, pickAlnum (seed / 36), pickAlnum (seed / 1296),
            pickAlnum (seed / 46656)] := rfl
      rw [hrand] at hc
      simp only [List.mem_cons, List.not_mem_nil, or_false] at hc
      rcases hc with rfl | rfl | rfl | rfl <;> exact pickAlnum_mem _
  · intro havail
    unfold startChat
    simp only [havail, if_true]
    simp only [List.filter_append, hold, List.nil_append, List.filter, hself]
    rfl
  · intro havail
    unfold startChat
    simp only [havail, Bool.false_eq_true, if_false]
    simp only [List.filter_append, hold, List.nil_append, List.filter, hself]
    rfl
  · cases havail : (is_currently_available db.sched.weekly wd t).1 with
    | true =>
      unfold startChat
      simp only [havail, if_true]
      simp only [List.filter_append, hold, List.nil_append, List.filter, hself]
      simp [List.chain'_cons]
    | false =>
      unfold startChat
      simp only [havail, Bool.false_eq_true, if_false]
      simp only [List.filter_append, hold, List.nil_append, List.filter, hself]
      simp [List.chain'_cons]

/-- Names defined in the class body of `ChatSession`
(`src/chat/models.py` lines 25-133). `ChatStatus` is a module-level
class, not one of them, and none of the attributes contributed by
`django.db.models.Model` or its metaclass is called `ChatStatus` either,
so the attribute access `ChatSession.ChatStatus` raises
`AttributeError`. -/
def chatSessionClassAttrs : List String :=
  ["chat_id", "student_name", "initial_message", "created_at", "status",
   "technicians", "student_session_key", "Meta", "__str__", "is_active",
   "needs_technician", "add_technician", "cleanup_files",
   "_cleanup_empty_directories", "delete"]

/-- Embedding of `Command.handle` of the `cleanup_old_chats` management
command (`src/chat/management/commands/cleanup_old_chats.py` lines
22-52). Evaluating the filter argument `ChatSession.ChatStatus.CLOSED`
performs an attribute lookup on the `ChatSession` class before any query
runs; the (never reached) rest of the handler filters the closed sessions
older than the cutoff and either reports them (dry run) or deletes them
with their messages and attachments, answering with the count. `now` and
`cutoff` are in seconds. -/
def cleanup_old_chats_handle (now days : Nat) (dry_run : Bool) (db : DB) :
    Except String (DB × Nat) :=
  if chatSessionClassAttrs.contains "ChatStatus" then
    let cutoff := now - days * 86400
    let old := db.sessions.filter
      (fun s => decide (s.status = ChatStatus.closed) && decide (s.created_at < cutoff))
    if dry_run then Except.ok (db, old.length)
    else
      let keep := fun (s : ChatSession) =>
        !(decide (s.status = ChatStatus.closed) && decide (s.created_at < cutoff))
      Except.ok
        ({ db with
            sessions := db.sessions.filter keep,
            messages := db.messages.filter
              (fun m => (old.find? (fun s => s.chat_id == m.chat)).isNone),
            attachments := db.attachments.filter
              (fun a => (old.find? (fun s => s.chat_id == a.chat)).isNone) },
          old.length)
  else Except.error "AttributeError: type object ChatSession has no attribute ChatStatus"

/-- Claim C9 against the code as written: every invocation of the
cleanup command — dry run or not, whatever the store holds — fails with
the `AttributeError` raised by `ChatSession.ChatStatus`, so it never
deletes anything and never lists anything. -/
theorem C9_cleanup_always_raises (now days : Nat) (dry_run : Bool) (db : DB) :
    cleanup_old_chats_handle now days dry_run db =
      Except.error "AttributeError: type object ChatSession has no attribute ChatStatus" :=
  rfl

/-- A store whose schedule makes support available (Monday 00:00-24:00,
queried on Monday). -/
def sampleStartDB : DB :=
  ⟨[], [], [], [],
    ⟨fun d => if d = (0 : Fin 7) then some ⟨true, some 0, some 86400000000⟩ else none,
      []⟩, 0⟩

/-- A store with no schedule rows at all, so support is unavailable. -/
def sampleOfflineDB : DB := ⟨[], [], [], [], ⟨fun _ => none, []⟩, 0⟩

/-- Witness for C8: a concrete start while support is available yields
the two messages in order. -/
theorem C8_startChat_initial_messages_witness :
    ((startChat sampleStartDB 0 0 0 ⟨2025, 10, 12, 9, 30, 0⟩ 0
        "Ada" "please help with loops" "sess1").1.messages.filter
      (fun m => m.chat == generate_chat_id ⟨2025, 10, 12, 9, 30, 0⟩ 0)).map
        (fun m => (m.message_type, m.is_from_student, m.content)) =
    [("system", false, start_system_content true none "Ada"),
      ("text", true, "please help with loops")] := by
  have h := C8_startChat_initial_messages sampleStartDB 0 0 0
    ⟨2025, 10, 12, 9, 30, 0⟩ 0 "Ada" "please help with loops" "sess1"
    (by refine ⟨?_, ?_, ?_, ?_, ?_, ?_, ?_⟩ <;> norm_num)
    (by intro m hm; simp [sampleStartDB] at hm)
  exact h.2.1 (by rfl)

/-- Counterexample to claim C8 as stated: when support is unavailable at
the time of the call (here: no schedule rows at all), `chat_landing`
creates three messages for the fresh session, not exactly two. -/
theorem C8_startChat_counterexample :
    ((startChat sampleOfflineDB 0 0 0 ⟨2025, 10, 12, 9, 30, 0⟩ 0
        "Ada" "please help with loops" "sess1").1.messages.filter
      (fun m => m.chat == generate_chat_id ⟨2025, 10, 12, 9, 30, 0⟩ 0)).length = 3 := by
  rfl

end SupportChat
